import Mathlib

/-!
Verification of the Gateway Service (`src/server/index.js`): the
environment-validation gate run at startup and the five HTTP request
handlers. JavaScript values appearing in request bodies are embedded as
`JsVal`; each Express handler becomes a pure Lean function from the
request body (plus the outcome of any external call it awaits) to the
HTTP response it sends, together with the list of invocations it made on
the generative-text client.
-/

namespace Gateway

/-- A JavaScript value as it can occur in a JSON request body or be
produced by destructuring (`undefined` stands for an absent field). -/
inductive JsVal where
  | undefined
  | null
  | bool (b : Bool)
  | num (n : Int)
  | str (s : String)
  | obj (fields : List (String × JsVal))
  | arr (elems : List JsVal)

/-- JavaScript truthiness, as tested by `if (!code)`. -/
def JsVal.truthy : JsVal → Bool
  | .undefined => false
  | .null => false
  | .bool b => b
  | .num n => n != 0
  | .str s => s != ""
  | .obj _ => true
  | .arr _ => true

mutual

/-- Conversion of one array element inside `Array.prototype.join`:
`undefined` and `null` elements render as the empty string; every other
element is converted as `ToString` would convert it (nested arrays join
recursively). -/
def JsVal.elemTemplateString : JsVal → String
  | .undefined => ""
  | .null => ""
  | .bool b => if b then "true" else "false"
  | .num n => toString n
  | .str s => s
  | .obj _ => "[object Object]"
  | .arr elems => JsVal.joinTemplate elems

/-- `Array.prototype.join` with the default "," separator, as invoked
by `ToString` on an array. -/
def JsVal.joinTemplate : List JsVal → String
  | [] => ""
  | [e] => e.elemTemplateString
  | e :: rest => e.elemTemplateString ++ "," ++ JsVal.joinTemplate rest

end

/-- String conversion performed by a template literal `${v}`: JS
`ToString`. An array renders as its elements joined with commas, so a
non-empty array such as `["js"]` interpolates as "js" and `[1,2]` as
"1,2"; only the empty array renders as "". -/
def JsVal.toTemplateString : JsVal → String
  | .undefined => "undefined"
  | .null => "null"
  | .bool b => if b then "true" else "false"
  | .num n => toString n
  | .str s => s
  | .obj _ => "[object Object]"
  | .arr elems => JsVal.joinTemplate elems

/-- Destructuring with a default, `const { x = d } = body`: the default
applies exactly when the field's value is `undefined`. -/
def destructureDefault (v : JsVal) (d : JsVal) : JsVal :=
  match v with
  | .undefined => d
  | _ => v

/-! ## Configuration gate (index.js lines 13-40) -/

/-- `requiredEnvVars` from index.js line 13. -/
def requiredEnvVars : List String :=
  ["SUPABASE_URL", "SUPABASE_SERVICE_ROLE_KEY", "GOOGLE_GEMINI_API_KEY"]

/-- `placeholderValues` from index.js lines 14-19. -/
def placeholderValues : List String :=
  [ "your_supabase_url_here"
  , "your_supabase_anon_key_here"
  , "your_supabase_service_role_key_here"
  , "your_google_gemini_api_key_here" ]

/-- The filter predicate of index.js lines 21-24: a required variable is
missing when it is absent, empty (`!value`), or a placeholder. -/
def envVarInvalid (env : String → Option String) (v : String) : Bool :=
  match env v with
  | none => true
  | some s => s == "" || placeholderValues.contains s

/-- `missingEnvVars` from index.js line 21. -/
def missingEnvVars (env : String → Option String) : List String :=
  requiredEnvVars.filter (envVarInvalid env)

/-- `process.env.PORT || 3001` (index.js line 10): JS `||` falls back on
any falsy value, including the empty string. -/
def serverPort (env : String → Option String) : JsVal :=
  match env "PORT" with
  | none => .num 3001
  | some s => if s = "" then .num 3001 else .str s

/-- Outcome of running the top of index.js: either `process.exit(1)` was
reached (carrying the list of variables named in the diagnostic) or the
server reached `app.listen`. -/
inductive StartupResult where
  | exited (code : Nat) (diagnosedVars : List String)
  | listening (port : JsVal)

/-- Startup control flow of index.js lines 26-65 and 171: the environment
gate runs first (lines 26-40); then the two external clients are
constructed (lines 42-65), whose constructors may throw — abstracted by
`clientsOk` — and on success the server listens. -/
def startup (env : String → Option String) (clientsOk : Bool) : StartupResult :=
  if missingEnvVars env ≠ [] then
    .exited 1 (missingEnvVars env)
  else if clientsOk then
    .listening (serverPort env)
  else
    .exited 1 []

/-! ## HTTP handlers (index.js lines 72-168) -/

/-- The response an Express handler sends (`res.json` defaults the status
to 200; `res.status(n).json` sets it to `n`), together with the list of
arguments passed to `model.generateContent` while handling the request. -/
structure HandlerOutcome where
  status : Nat
  body : List (String × JsVal)
  genCalls : List JsVal

/-- Result of awaiting `model.generateContent(p)`, `result.response`,
`response.text()`: either the completion text or a thrown error whose
`message` is carried. -/
abbrev GenClient := JsVal → Except String String

/-- `GET /health` (index.js lines 72-81). -/
def healthHandler : HandlerOutcome :=
  { status := 200
  , body :=
      [ ("status", .str "OK")
      , ("message", .str "Server is running")
      , ("services", .obj
          [ ("supabase", .str "✅ Connected")
          , ("gemini", .str "✅ Connected") ]) ]
  , genCalls := [] }

/-- `GET /api/test` (index.js lines 84-86). -/
def apiTestHandler : HandlerOutcome :=
  { status := 200, body := [("message", .str "API is working!")], genCalls := [] }

/-- Outcome of awaiting `supabase.from('test').select('*').limit(1)`:
the awaited call resolves to `{ data, error }` with `error` null
(`resolvedOk`) or non-null (`resolvedError`), or the promise rejects
(`thrown`). -/
inductive SupabaseOutcome where
  | resolvedOk (data : JsVal)
  | resolvedError (message : String)
  | thrown (message : String)

/-- `GET /api/supabase-test` (index.js lines 89-100). -/
def supabaseTestHandler (q : SupabaseOutcome) : HandlerOutcome :=
  match q with
  | .resolvedError msg =>
      { status := 200
      , body :=
          [ ("status", .str "connected")
          , ("message", .str "Supabase connected (no test table found)")
          , ("error", .str msg) ]
      , genCalls := [] }
  | .resolvedOk data =>
      { status := 200
      , body :=
          [ ("status", .str "connected")
          , ("message", .str "Supabase connected successfully")
          , ("data", data) ]
      , genCalls := [] }
  | .thrown msg =>
      { status := 500
      , body :=
          [ ("status", .str "error")
          , ("message", .str "Supabase connection failed")
          , ("error", .str msg) ]
      , genCalls := [] }

/-- Request body of `POST /api/gemini-test`; an absent field is
`undefined`. -/
structure GeminiTestBody where
  prompt : JsVal

/-- `POST /api/gemini-test` (index.js lines 103-123). -/
def geminiTestHandler (gen : GenClient) (body : GeminiTestBody) : HandlerOutcome :=
  let prompt := destructureDefault body.prompt (.str "Hello, how are you?")
  match gen prompt with
  | .ok text =>
      { status := 200
      , body :=
          [ ("status", .str "success")
          , ("message", .str "Google Gemini AI working successfully")
          , ("prompt", prompt)
          , ("response", .str text) ]
      , genCalls := [prompt] }
  | .error msg =>
      { status := 500
      , body :=
          [ ("status", .str "error")
          , ("message", .str "Google Gemini AI test failed")
          , ("error", .str msg) ]
      , genCalls := [prompt] }

/-- Request body of `POST /api/code-review`; an absent field is
`undefined`. -/
structure CodeReviewBody where
  code : JsVal
  language : JsVal

/-- The template literal of index.js lines 134-149, with `${language}`
and `${code}` interpolated. -/
def codeReviewPrompt (language code : String) : String :=
  "Please review the following " ++ language ++
  " code and provide constructive feedback:\n\nCode:\n```" ++ language ++
  "\n" ++ code ++
  "\n```\n\nPlease provide:\n1. Overall code quality assessment\n2. Potential bugs or issues\n3. Performance improvements\n4. Best practices suggestions\n5. Security considerations (if applicable)\n6. Code style and readability improvements\n\nFormat your response in a clear, structured way."

/-- `POST /api/code-review` (index.js lines 126-168). `nowIso` is the
string produced by `new Date().toISOString()` at response time. -/
def codeReviewHandler (gen : GenClient) (nowIso : String)
    (body : CodeReviewBody) : HandlerOutcome :=
  let code := body.code
  let language := destructureDefault body.language (.str "javascript")
  if !code.truthy then
    { status := 400, body := [("error", .str "Code is required")], genCalls := [] }
  else
    let prompt := codeReviewPrompt language.toTemplateString code.toTemplateString
    match gen (.str prompt) with
    | .ok review =>
        { status := 200
        , body :=
            [ ("success", .bool true)
            , ("review", .str review)
            , ("language", language)
            , ("timestamp", .str nowIso) ]
        , genCalls := [.str prompt] }
    | .error msg =>
        { status := 500
        , body :=
            [ ("error", .str "Failed to generate code review")
            , ("message", .str msg) ]
        , genCalls := [.str prompt] }

/-! ## Timestamps -/

/-- A calendar date-time with millisecond precision, the information
rendered by `Date.prototype.toISOString`. -/
structure DateTime where
  year : Nat
  month : Nat
  day : Nat
  hour : Nat
  minute : Nat
  second : Nat
  millis : Nat

/-- The last two decimal digits of `n`, as characters. -/
def padDigits2 (n : Nat) : List Char :=
  [Nat.digitChar (n / 10 % 10), Nat.digitChar (n % 10)]

/-- The last three decimal digits of `n`, as characters. -/
def padDigits3 (n : Nat) : List Char :=
  Nat.digitChar (n / 100 % 10) :: padDigits2 n

/-- The last four decimal digits of `n`, as characters. -/
def padDigits4 (n : Nat) : List Char :=
  Nat.digitChar (n / 1000 % 10) :: padDigits3 n

/-- Modelled from the spec: `new Date().toISOString()` (index.js line
159) is a JavaScript runtime built-in with no source under `src/`; per
the spec the field must be "parseable as ISO-8601". This renders the
ECMAScript `YYYY-MM-DDTHH:mm:ss.sssZ` format for years below 10000. -/
def DateTime.toISOString (d : DateTime) : String :=
  String.mk (padDigits4 d.year ++ '-' :: padDigits2 d.month ++
    '-' :: padDigits2 d.day ++ 'T' :: padDigits2 d.hour ++
    ':' :: padDigits2 d.minute ++ ':' :: padDigits2 d.second ++
    '.' :: padDigits3 d.millis ++ ['Z'])

/-- Recogniser for the ISO-8601 UTC timestamp shape
`YYYY-MM-DDTHH:mm:ss.sssZ`. -/
def isIso8601UTC (s : String) : Bool :=
  match s.data with
  | [y1, y2, y3, y4, h1, m1, m2, h2, d1, d2, t, o1, o2, c1, n1, n2, c2,
     s1, s2, dot, f1, f2, f3, z] =>
      y1.isDigit && y2.isDigit && y3.isDigit && y4.isDigit && h1 == '-' &&
      m1.isDigit && m2.isDigit && h2 == '-' && d1.isDigit && d2.isDigit &&
      t == 'T' && o1.isDigit && o2.isDigit && c1 == ':' && n1.isDigit &&
      n2.isDigit && c2 == ':' && s1.isDigit && s2.isDigit && dot == '.' &&
      f1.isDigit && f2.isDigit && f3.isDigit && z == 'Z'
  | _ => false

/-! ## Serving requests -/

/-- An inbound request, packaged with the outcome of the external calls
its handler will await (each request is independent; the external world
may answer differently each time). -/
inductive Request where
  | health
  | apiTest
  | supabaseTest (q : SupabaseOutcome)
  | geminiTest (gen : GenClient) (body : GeminiTestBody)
  | codeReview (gen : GenClient) (nowIso : String) (body : CodeReviewBody)

/-- Dispatch a request to its route handler. -/
def handle : Request → HandlerOutcome
  | .health => healthHandler
  | .apiTest => apiTestHandler
  | .supabaseTest q => supabaseTestHandler q
  | .geminiTest gen body => geminiTestHandler gen body
  | .codeReview gen nowIso body => codeReviewHandler gen nowIso body

/-- The server's per-request loop: handlers share no mutable state, so a
run over a request sequence is the pointwise map of `handle`. -/
def serve (rs : List Request) : List HandlerOutcome :=
  rs.map handle

/-- Requests ever served for a given startup outcome: none when startup
exited before `app.listen`. -/
def servedResponses : StartupResult → List Request → List HandlerOutcome
  | .exited _ _, _ => []
  | .listening _, rs => serve rs

/-! ## Helper lemmas -/

theorem digitChar_isDigit_of_lt {n : Nat} (h : n < 10) :
    (Nat.digitChar n).isDigit = true := by
  interval_cases n <;> rfl

theorem digitChar_mod_isDigit (n : Nat) :
    (Nat.digitChar (n % 10)).isDigit = true :=
  digitChar_isDigit_of_lt (Nat.mod_lt _ (by norm_num))

/-- Every rendered timestamp has the ISO-8601 UTC shape. -/
theorem toISOString_isIso8601 (d : DateTime) :
    isIso8601UTC d.toISOString = true := by
  simp [DateTime.toISOString, isIso8601UTC, padDigits4, padDigits3, padDigits2,
    digitChar_mod_isDigit]

theorem destructureDefault_ne {v : JsVal} (d : JsVal) (h : v ≠ .undefined) :
    destructureDefault v d = v := by
  cases v <;> first | rfl | exact absurd rfl h

theorem toTemplateString_str (s : String) :
    (JsVal.str s).toTemplateString = s := rfl

/-! ## Claims -/

/-- C1: when at least one required environment variable is absent, empty
or a placeholder, startup exits with status 1, the diagnostic names
every missing/placeholder key, and no request is ever served. -/
theorem startup_gate_failfast (env : String → Option String) (clientsOk : Bool)
    (h : ∃ v ∈ requiredEnvVars, envVarInvalid env v = true) :
    startup env clientsOk = .exited 1 (missingEnvVars env)
    ∧ (∀ v ∈ requiredEnvVars, envVarInvalid env v = true →
        v ∈ missingEnvVars env)
    ∧ (∀ rs, servedResponses (startup env clientsOk) rs = []) := by
  obtain ⟨v, hv, hinv⟩ := h
  have hmem : v ∈ missingEnvVars env := List.mem_filter.mpr ⟨hv, hinv⟩
  have hne : missingEnvVars env ≠ [] := by
    intro hnil
    rw [hnil] at hmem
    exact absurd hmem (List.not_mem_nil v)
  refine ⟨?_, ?_, ?_⟩
  · simp only [startup, if_pos hne]
  · intro w hw hinvw
    exact List.mem_filter.mpr ⟨hw, hinvw⟩
  · intro rs
    simp only [startup, if_pos hne, servedResponses]

theorem startup_gate_failfast_w :
    startup (fun _ => none) true = .exited 1 (missingEnvVars (fun _ => none))
    ∧ "SUPABASE_URL" ∈ missingEnvVars (fun _ => none)
    ∧ servedResponses (startup (fun _ => none) true) [.health] = [] := by
  have h := startup_gate_failfast (fun _ => none) true
    ⟨"SUPABASE_URL", by decide, rfl⟩
  exact ⟨h.1, h.2.1 "SUPABASE_URL" (by decide) rfl, h.2.2 [.health]⟩

/-- C2: a body without a `code` field gets HTTP 400 with an `error`
field and the generative-text client is never invoked. -/
theorem codeReview_missing_code_400 (gen : GenClient) (nowIso : String)
    (lang : JsVal) :
    codeReviewHandler gen nowIso ⟨.undefined, lang⟩ =
      { status := 400
      , body := [("error", .str "Code is required")]
      , genCalls := [] } := by
  rfl

/-- C3: with a non-empty `code` string and a `language` string, when the
generative-text client answers `t`, the handler calls the client exactly
once with a prompt containing the literal code and the language, and
returns 200 with `success:true`, the client's text verbatim as `review`,
the request's language, and an ISO-8601 `timestamp`. -/
theorem codeReview_success_roundtrip (gen : GenClient) (d : DateTime)
    (c lang t : String)
    (hc : c ≠ "")
    (_hyear : d.year < 10000)
    (hgen : gen (.str (codeReviewPrompt lang c)) = .ok t) :
    codeReviewHandler gen d.toISOString ⟨.str c, .str lang⟩ =
      { status := 200
      , body :=
          [ ("success", .bool true)
          , ("review", .str t)
          , ("language", .str lang)
          , ("timestamp", .str d.toISOString) ]
      , genCalls := [.str (codeReviewPrompt lang c)] }
    ∧ (∃ pre suf, codeReviewPrompt lang c = pre ++ c ++ suf)
    ∧ (∃ pre suf, codeReviewPrompt lang c = pre ++ lang ++ suf)
    ∧ isIso8601UTC d.toISOString = true := by
  refine ⟨?_, ?_, ?_, toISOString_isIso8601 d⟩
  · simp [codeReviewHandler, destructureDefault, JsVal.truthy,
      JsVal.toTemplateString, hc, hgen]
  · exact ⟨"Please review the following " ++ lang ++
      " code and provide constructive feedback:\n\nCode:\n```" ++ lang ++ "\n",
      "\n```\n\nPlease provide:\n1. Overall code quality assessment\n2. Potential bugs or issues\n3. Performance improvements\n4. Best practices suggestions\n5. Security considerations (if applicable)\n6. Code style and readability improvements\n\nFormat your response in a clear, structured way.",
      by simp [codeReviewPrompt, String.append_assoc]⟩
  · exact ⟨"Please review the following ",
      " code and provide constructive feedback:\n\nCode:\n```" ++ lang ++
      "\n" ++ c ++
      "\n```\n\nPlease provide:\n1. Overall code quality assessment\n2. Potential bugs or issues\n3. Performance improvements\n4. Best practices suggestions\n5. Security considerations (if applicable)\n6. Code style and readability improvements\n\nFormat your response in a clear, structured way.",
      by simp [codeReviewPrompt, String.append_assoc]⟩

theorem codeReview_success_roundtrip_w :
    (codeReviewHandler (fun _ => .ok "Looks fine")
        (DateTime.toISOString ⟨2025, 1, 2, 3, 4, 5, 6⟩)
        ⟨.str "function f()\x7b\x7d", .str "javascript"⟩).status = 200
    ∧ ("review", JsVal.str "Looks fine") ∈
        (codeReviewHandler (fun _ => .ok "Looks fine")
          (DateTime.toISOString ⟨2025, 1, 2, 3, 4, 5, 6⟩)
          ⟨.str "function f()\x7b\x7d", .str "javascript"⟩).body
    ∧ isIso8601UTC (DateTime.toISOString ⟨2025, 1, 2, 3, 4, 5, 6⟩) = true := by
  have h := codeReview_success_roundtrip (fun _ => .ok "Looks fine")
    ⟨2025, 1, 2, 3, 4, 5, 6⟩ "function f()\x7b\x7d" "javascript" "Looks fine"
    (by decide) (by decide) rfl
  refine ⟨by rw [h.1], ?_, h.2.2.2⟩
  rw [h.1]
  exact List.Mem.tail _ (List.Mem.head _)

/-- C4 counterexample: when the awaited data-store query throws, the
handler responds 500 with status "error", so the claim that every
request gets HTTP 200 with status "connected" fails at this input. -/
theorem supabaseTest_thrown_gives_500 :
    (supabaseTestHandler (.thrown "fetch failed")).status = 500
    ∧ (supabaseTestHandler (.thrown "fetch failed")).status ≠ 200
    ∧ ("status", JsVal.str "error") ∈
        (supabaseTestHandler (.thrown "fetch failed")).body := by
  exact ⟨rfl, by decide, List.Mem.head _⟩

/-- C4 amended: a query call that resolves — with or without an error
field — yields HTTP 200 with status "connected", the error reported
in-body; only a query call that throws/rejects yields HTTP 500. -/
theorem supabaseTest_responses (data : JsVal) (m : String) :
    supabaseTestHandler (.resolvedOk data) =
      { status := 200
      , body :=
          [ ("status", .str "connected")
          , ("message", .str "Supabase connected successfully")
          , ("data", data) ]
      , genCalls := [] }
    ∧ supabaseTestHandler (.resolvedError m) =
      { status := 200
      , body :=
          [ ("status", .str "connected")
          , ("message", .str "Supabase connected (no test table found)")
          , ("error", .str m) ]
      , genCalls := [] }
    ∧ supabaseTestHandler (.thrown m) =
      { status := 500
      , body :=
          [ ("status", .str "error")
          , ("message", .str "Supabase connection failed")
          , ("error", .str m) ]
      , genCalls := [] } :=
  ⟨rfl, rfl, rfl⟩

/-- C5: when the generative-text client throws, `/api/code-review`
answers 500 with an `error` field and the underlying message, and
`/api/gemini-test` answers 500 with status "error" and the underlying
message; the serving loop is unaffected — surrounding requests get
exactly the responses they would get on their own. -/
theorem gen_failure_500_process_survives (gen1 gen2 : GenClient)
    (m1 m2 nowIso : String) (b1 : CodeReviewBody) (b2 : GeminiTestBody)
    (hc : b1.code.truthy = true)
    (h1 : ∀ v, gen1 v = .error m1) (h2 : ∀ v, gen2 v = .error m2)
    (pre post : List Request) :
    (codeReviewHandler gen1 nowIso b1).status = 500
    ∧ ("error", JsVal.str "Failed to generate code review") ∈
        (codeReviewHandler gen1 nowIso b1).body
    ∧ ("message", JsVal.str m1) ∈ (codeReviewHandler gen1 nowIso b1).body
    ∧ (geminiTestHandler gen2 b2).status = 500
    ∧ ("status", JsVal.str "error") ∈ (geminiTestHandler gen2 b2).body
    ∧ ("error", JsVal.str m2) ∈ (geminiTestHandler gen2 b2).body
    ∧ serve (pre ++ [.codeReview gen1 nowIso b1] ++ post)
        = serve pre ++ [codeReviewHandler gen1 nowIso b1] ++ serve post := by
  refine ⟨?_, ?_, ?_, ?_, ?_, ?_, ?_⟩ <;>
    simp [codeReviewHandler, geminiTestHandler, serve, handle, hc, h1, h2,
      List.mem_cons]

theorem gen_failure_500_process_survives_w :
    (codeReviewHandler (fun _ => .error "quota") "now"
        ⟨.str "function f()\x7b\x7d", .undefined⟩).status = 500
    ∧ (geminiTestHandler (fun _ => .error "quota") ⟨.undefined⟩).status = 500
    ∧ serve ([.health] ++
        [.codeReview (fun _ => .error "quota") "now"
          ⟨.str "function f()\x7b\x7d", .undefined⟩] ++ [.apiTest])
        = serve [.health] ++
          [codeReviewHandler (fun _ => .error "quota") "now"
            ⟨.str "function f()\x7b\x7d", .undefined⟩] ++ serve [.apiTest] := by
  have h := gen_failure_500_process_survives
    (fun _ => .error "quota") (fun _ => .error "quota") "quota" "quota" "now"
    ⟨.str "function f()\x7b\x7d", .undefined⟩ ⟨.undefined⟩
    (by decide) (fun _ => rfl) (fun _ => rfl) [.health] [.apiTest]
  exact ⟨h.1, h.2.2.2.1, h.2.2.2.2.2.2⟩

/-- C6: when `language` is absent, it defaults to "javascript" in both
the prompt sent to the client and the response's `language` field. -/
theorem codeReview_language_default (gen : GenClient) (nowIso : String)
    (c t : String)
    (hc : c ≠ "")
    (hgen : gen (.str (codeReviewPrompt "javascript" c)) = .ok t) :
    codeReviewHandler gen nowIso ⟨.str c, .undefined⟩ =
      { status := 200
      , body :=
          [ ("success", .bool true)
          , ("review", .str t)
          , ("language", .str "javascript")
          , ("timestamp", .str nowIso) ]
      , genCalls := [.str (codeReviewPrompt "javascript" c)] } := by
  simp [codeReviewHandler, destructureDefault, JsVal.truthy,
    JsVal.toTemplateString, hc, hgen]

theorem codeReview_language_default_w :
    codeReviewHandler (fun _ => .ok "tidy") "now"
        ⟨.str "print(1)", .undefined⟩ =
      { status := 200
      , body :=
          [ ("success", JsVal.bool true)
          , ("review", JsVal.str "tidy")
          , ("language", JsVal.str "javascript")
          , ("timestamp", JsVal.str "now") ]
      , genCalls := [JsVal.str (codeReviewPrompt "javascript" "print(1)")] } :=
  codeReview_language_default (fun _ => .ok "tidy") "now" "print(1)" "tidy"
    (by decide) rfl

/-- C7: `/api/gemini-test` forwards a supplied `prompt` string verbatim
to the client and echoes it back beside the client's completion; when
`prompt` is absent, the fixed default prompt is used instead. -/
theorem geminiTest_prompt_forwarding (gen : GenClient) (p t td : String)
    (hp : gen (.str p) = .ok t)
    (hd : gen (.str "Hello, how are you?") = .ok td) :
    geminiTestHandler gen ⟨.str p⟩ =
      { status := 200
      , body :=
          [ ("status", .str "success")
          , ("message", .str "Google Gemini AI working successfully")
          , ("prompt", .str p)
          , ("response", .str t) ]
      , genCalls := [.str p] }
    ∧ geminiTestHandler gen ⟨.undefined⟩ =
      { status := 200
      , body :=
          [ ("status", .str "success")
          , ("message", .str "Google Gemini AI working successfully")
          , ("prompt", .str "Hello, how are you?")
          , ("response", .str td) ]
      , genCalls := [.str "Hello, how are you?"] } := by
  constructor <;> simp [geminiTestHandler, destructureDefault, hp, hd]

theorem geminiTest_prompt_forwarding_w :
    geminiTestHandler (fun _ => .ok "Doing well") ⟨.str "Say hi"⟩ =
      { status := 200
      , body :=
          [ ("status", JsVal.str "success")
          , ("message", JsVal.str "Google Gemini AI working successfully")
          , ("prompt", JsVal.str "Say hi")
          , ("response", JsVal.str "Doing well") ]
      , genCalls := [JsVal.str "Say hi"] } :=
  (geminiTest_prompt_forwarding (fun _ => .ok "Doing well")
    "Say hi" "Doing well" "Doing well" rfl rfl).1

/-- C8: `/health` answers 200 with status "OK" and static "connected"
service statuses, performing no call on any external client. -/
theorem health_static_ok :
    handle .health =
      { status := 200
      , body :=
          [ ("status", .str "OK")
          , ("message", .str "Server is running")
          , ("services", .obj
              [ ("supabase", .str "✅ Connected")
              , ("gemini", .str "✅ Connected") ]) ]
      , genCalls := [] } :=
  rfl

/-- C9: the presence check on `code` is a truthiness test — every falsy
`code` value gets the same 400 response as an absent field, and the
client is never invoked. -/
theorem codeReview_falsy_code_400 (gen : GenClient) (nowIso : String)
    (v lang : JsVal)
    (h : v.truthy = false) :
    codeReviewHandler gen nowIso ⟨v, lang⟩ =
      { status := 400
      , body := [("error", .str "Code is required")]
      , genCalls := [] }
    ∧ codeReviewHandler gen nowIso ⟨v, lang⟩
        = codeReviewHandler gen nowIso ⟨.undefined, lang⟩ := by
  have h400 : codeReviewHandler gen nowIso ⟨v, lang⟩ =
      { status := 400
      , body := [("error", .str "Code is required")]
      , genCalls := [] } := by
    simp [codeReviewHandler, h]
  exact ⟨h400, h400.trans rfl⟩

theorem codeReview_falsy_code_400_w :
    codeReviewHandler (fun _ => .ok "r") "now" ⟨.str "", .undefined⟩ =
      { status := 400
      , body := [("error", JsVal.str "Code is required")]
      , genCalls := [] }
    ∧ codeReviewHandler (fun _ => .ok "r") "now" ⟨.num 0, .undefined⟩ =
      { status := 400
      , body := [("error", JsVal.str "Code is required")]
      , genCalls := [] }
    ∧ codeReviewHandler (fun _ => .ok "r") "now" ⟨.bool false, .undefined⟩ =
      { status := 400
      , body := [("error", JsVal.str "Code is required")]
      , genCalls := [] }
    ∧ codeReviewHandler (fun _ => .ok "r") "now" ⟨.null, .undefined⟩ =
      { status := 400
      , body := [("error", JsVal.str "Code is required")]
      , genCalls := [] } :=
  ⟨(codeReview_falsy_code_400 _ _ _ _ (by decide)).1,
   (codeReview_falsy_code_400 _ _ _ _ (by decide)).1,
   (codeReview_falsy_code_400 _ _ _ _ (by decide)).1,
   (codeReview_falsy_code_400 _ _ _ _ (by decide)).1⟩

/-- C10: an explicitly supplied non-undefined `language` value — empty
string and null included — is not replaced by "javascript": the prompt
is built from that value's interpolation and the response's `language`
field carries the value itself. -/
theorem codeReview_language_passthrough (gen : GenClient) (nowIso : String)
    (v : JsVal) (c t : String)
    (hv : v ≠ .undefined)
    (hc : c ≠ "")
    (hgen : gen (.str (codeReviewPrompt v.toTemplateString c)) = .ok t) :
    codeReviewHandler gen nowIso ⟨.str c, v⟩ =
      { status := 200
      , body :=
          [ ("success", .bool true)
          , ("review", .str t)
          , ("language", v)
          , ("timestamp", .str nowIso) ]
      , genCalls := [.str (codeReviewPrompt v.toTemplateString c)] } := by
  simp [codeReviewHandler, destructureDefault_ne _ hv, JsVal.truthy,
    toTemplateString_str, hc, hgen]

theorem codeReview_language_passthrough_w :
    codeReviewHandler (fun _ => .ok "r") "now" ⟨.str "x = 1", .null⟩ =
      { status := 200
      , body :=
          [ ("success", JsVal.bool true)
          , ("review", JsVal.str "r")
          , ("language", JsVal.null)
          , ("timestamp", JsVal.str "now") ]
      , genCalls := [JsVal.str (codeReviewPrompt "null" "x = 1")] }
    ∧ codeReviewHandler (fun _ => .ok "r") "now" ⟨.str "x = 1", .str ""⟩ =
      { status := 200
      , body :=
          [ ("success", JsVal.bool true)
          , ("review", JsVal.str "r")
          , ("language", JsVal.str "")
          , ("timestamp", JsVal.str "now") ]
      , genCalls := [JsVal.str (codeReviewPrompt "" "x = 1")] }
    ∧ codeReviewHandler (fun _ => .ok "r") "now"
        ⟨.str "x = 1", .arr [.str "ts", .str "js"]⟩ =
      { status := 200
      , body :=
          [ ("success", JsVal.bool true)
          , ("review", JsVal.str "r")
          , ("language", JsVal.arr [JsVal.str "ts", JsVal.str "js"])
          , ("timestamp", JsVal.str "now") ]
      , genCalls := [JsVal.str (codeReviewPrompt "ts,js" "x = 1")] } :=
  ⟨codeReview_language_passthrough (fun _ => .ok "r") "now" .null "x = 1" "r"
    (by simp) (by decide) rfl,
   codeReview_language_passthrough (fun _ => .ok "r") "now" (.str "") "x = 1" "r"
    (by simp) (by decide) rfl,
   codeReview_language_passthrough (fun _ => .ok "r") "now"
    (.arr [.str "ts", .str "js"]) "x = 1" "r" (by simp) (by decide) rfl⟩

end Gateway
